import Mathlib

/-!
Verification of `extensions/amp-ad-network-doubleclick-impl/0.1/doubleclick-a4a-config.js`.

The file is shallowly embedded: DOM/window inputs become structures of the
fields the code actually reads, the mutable singleton state (the experiments
module branch registry, the `activeExperiments_` flag map, and the external
calls `addExperimentIdToElement` / `forceExperimentBranch`, instrumented as
lists) becomes an explicit `ExpState` threaded through the functions, and the
external randomized bucketing utility becomes an oracle parameter.
-/

namespace AmpDoubleclick

/-- JavaScript truthiness of a nullable string (`null`/absent and the empty
string are falsy, every other string is truthy). -/
def jsTruthyStr : Option String → Bool
  | none => false
  | some s => s != ""

/-- JavaScript loose equality `x == -1` where `x` is the URL experiment id
(`undefined` or a number): `undefined == -1` is false. -/
def jsEqNeg1 : Option Int → Bool
  | none => false
  | some k => k == -1

/-- JavaScript loose equality `x == undefined` for the URL experiment id. -/
def jsIsUndef (u : Option Int) : Bool :=
  u.isNone

/-- JavaScript truthiness of the URL experiment id: `undefined` and the
number `0` are falsy. -/
def jsTruthyUrlId : Option Int → Bool
  | none => false
  | some k => k != 0

/-- Character class `[a-zA-Z0-9_-]` of the CDN proxy regex. -/
def isCdnLabelChar (c : Char) : Bool :=
  c.isAlpha || c.isDigit || c == '_' || c == '-'

/-- After the literal host `cdn.ampproject.org`, the regex suffix
`((\/.*)|($))+` accepts exactly an empty remainder (via `$`) or a remainder
whose first character is a slash (one `\/.*` iteration; `RegExp.test` does not
require the match to reach the end of the string). -/
def cdnTailOk : List Char → Bool
  | [] => true
  | c :: _ => c == '/'

/-- The characters of the literal host part of the CDN proxy regex. -/
def cdnHostChars : List Char :=
  "cdn.ampproject.org".data

/-- Matches the part of the CDN proxy regex after `https:\/\/`:
`([a-zA-Z0-9_-]+\.)? cdn\.ampproject\.org ((\/.*)|($))+`.  The optional
subdomain label cannot contain a dot, so the only candidate label is the
maximal run of label characters. -/
def cdnAfterScheme (cs : List Char) : Bool :=
  (cs.take 18 == cdnHostChars && cdnTailOk (cs.drop 18)) ||
  (let label := cs.takeWhile isCdnLabelChar
   !label.isEmpty &&
     (match cs.drop label.length with
      | '.' :: rest => rest.take 18 == cdnHostChars && cdnTailOk (rest.drop 18)
      | _ => false))

/-- `isCdnProxy` (lines 128-132): whether `win.location.origin` matches
`/^https:\/\/([a-zA-Z0-9_-]+\.)?cdn\.ampproject\.org((\/.*)|($))+/`. -/
def isCdnProxy (origin : String) : Bool :=
  let cs := origin.data
  cs.take 8 == "https://".data && cdnAfterScheme (cs.drop 8)

/-- The fields of the DOM element that the file reads. -/
structure Element where
  /-- `element.getAttribute('rtc-config')`: `none` when the attribute is absent. -/
  rtcConfig : Option String
  /-- `'useSameDomainRenderingUntilDeprecated' in element.dataset`. -/
  useSameDomainDataset : Bool
  /-- `element.hasAttribute('useSameDomainRenderingUntilDeprecated')`. -/
  useSameDomainAttr : Bool
  /-- `element.hasAttribute(BETA_ATTRIBUTE)` with `BETA_ATTRIBUTE =
  'data-use-beta-a4a-implementation'`. -/
  betaAttribute : Bool
  deriving DecidableEq

/-- The fields of the window that the file reads.  `urlExperimentId` is
modelled from the spec: `extractUrlExperimentId` lives in the external
`traffic-experiments` module (not under src); it yields the experiment id
taken from the page URL, or `undefined` (`none`). -/
structure Window where
  locationOrigin : String
  /-- `getMode(win).localDev`. -/
  localDev : Bool
  /-- `getMode(win).test`. -/
  testMode : Bool
  /-- `supportsNativeCrypto(win)`, read through the `supportsCrypto` wrapper. -/
  cryptoSupported : Bool
  /-- Result of the external `extractUrlExperimentId(win, element)`. -/
  urlExperimentId : Option Int
  deriving DecidableEq

/-- `DOUBLECLICK_A4A_EXPERIMENT_NAME` (line 39). -/
def DOUBLECLICK_A4A_EXPERIMENT_NAME : String := "expDoubleclickA4A"

/-- `DFP_CANONICAL_FF_EXPERIMENT_NAME` (line 42). -/
def DFP_CANONICAL_FF_EXPERIMENT_NAME : String := "expDfpCanonicalFf"

/-- `DOUBLECLICK_UNCONDITIONED_EXPERIMENT_NAME` (lines 45-46). -/
def DOUBLECLICK_UNCONDITIONED_EXPERIMENT_NAME : String := "expUnconditionedDoubleclick"

/-- `BETA_EXPERIMENT_ID` (line 101). -/
def BETA_EXPERIMENT_ID : String := "2077831"

namespace DOUBLECLICK_EXPERIMENT_FEATURE

/-- Enum member `HOLDBACK_EXTERNAL_CONTROL` (line 53). -/
def HOLDBACK_EXTERNAL_CONTROL : String := "21060726"

/-- Enum member `HOLDBACK_EXTERNAL` (line 54). -/
def HOLDBACK_EXTERNAL : String := "21060727"

/-- Enum member `DELAYED_REQUEST_CONTROL` (line 55). -/
def DELAYED_REQUEST_CONTROL : String := "21060728"

/-- Enum member `DELAYED_REQUEST` (line 56). -/
def DELAYED_REQUEST : String := "21060729"

/-- Enum member `SRA_CONTROL` (line 57). -/
def SRA_CONTROL : String := "117152666"

/-- Enum member `SRA` (line 58). -/
def SRA : String := "117152667"

/-- Enum member `HOLDBACK_INTERNAL_CONTROL` (line 59). -/
def HOLDBACK_INTERNAL_CONTROL : String := "2092613"

/-- Enum member `HOLDBACK_INTERNAL` (line 60). -/
def HOLDBACK_INTERNAL : String := "2092614"

/-- Enum member `CANONICAL_CONTROL` (line 61). -/
def CANONICAL_CONTROL : String := "21060932"

/-- Enum member `CANONICAL_EXPERIMENT` (line 62). -/
def CANONICAL_EXPERIMENT : String := "21060933"

/-- Enum member `CACHE_EXTENSION_INJECTION_CONTROL` (line 63). -/
def CACHE_EXTENSION_INJECTION_CONTROL : String := "21060955"

/-- Enum member `CACHE_EXTENSION_INJECTION_EXP` (line 64). -/
def CACHE_EXTENSION_INJECTION_EXP : String := "21060956"

/-- Enum member `IDENTITY_CONTROL` (line 65). -/
def IDENTITY_CONTROL : String := "21060937"

/-- Enum member `IDENTITY_EXPERIMENT` (line 66). -/
def IDENTITY_EXPERIMENT : String := "21060938"

/-- Enum member `UNCONDITIONED_FF_CONTROL` (line 67). -/
def UNCONDITIONED_FF_CONTROL : String := "21061145"

/-- Enum member `UNCONDITIONED_FF_EXPERIMENT` (line 68). -/
def UNCONDITIONED_FF_EXPERIMENT : String := "21061146"

end DOUBLECLICK_EXPERIMENT_FEATURE

namespace DOUBLECLICK_UNCONDITIONED_EXPERIMENTS

/-- `FF_CANONICAL_CTL` (line 72). -/
def FF_CANONICAL_CTL : String := "21061145"

/-- `FF_CANONICAL_EXP` (line 73). -/
def FF_CANONICAL_EXP : String := "21061146"

end DOUBLECLICK_UNCONDITIONED_EXPERIMENTS

/-- Modelled from the spec: `MANUAL_EXPERIMENT_ID` is imported from the
external `traffic-experiments` module (not under src); it is the experiment id
string of the manually triggered experiment. -/
def MANUAL_EXPERIMENT_ID : String := "117152632"

/-- `URL_EXPERIMENT_MAPPING` (lines 77-95).  JavaScript object indexing with a
number coerces the key to a string; keys outside `-1..10` read as `undefined`
and key `0` maps to `null`, both of which collapse to `none`. -/
def URL_EXPERIMENT_MAPPING (k : Int) : Option String :=
  if k = -1 then some MANUAL_EXPERIMENT_ID
  else if k = 1 then some DOUBLECLICK_EXPERIMENT_FEATURE.HOLDBACK_EXTERNAL_CONTROL
  else if k = 2 then some DOUBLECLICK_EXPERIMENT_FEATURE.HOLDBACK_EXTERNAL
  else if k = 3 then some DOUBLECLICK_EXPERIMENT_FEATURE.DELAYED_REQUEST_CONTROL
  else if k = 4 then some DOUBLECLICK_EXPERIMENT_FEATURE.DELAYED_REQUEST
  else if k = 5 then some DOUBLECLICK_EXPERIMENT_FEATURE.IDENTITY_CONTROL
  else if k = 6 then some DOUBLECLICK_EXPERIMENT_FEATURE.IDENTITY_EXPERIMENT
  else if k = 7 then some DOUBLECLICK_EXPERIMENT_FEATURE.SRA_CONTROL
  else if k = 8 then some DOUBLECLICK_EXPERIMENT_FEATURE.SRA
  else if k = 9 then some DOUBLECLICK_EXPERIMENT_FEATURE.CACHE_EXTENSION_INJECTION_CONTROL
  else if k = 10 then some DOUBLECLICK_EXPERIMENT_FEATURE.CACHE_EXTENSION_INJECTION_EXP
  else none

/-- The mutable state of the singleton and of its external collaborators.
`branches` is the experiments module registry (experiment name to selected
branch id), `activeExperiments` is the `activeExperiments_` flag map
(`obj[id] = true` assignments), and the last two fields instrument the
external calls so that the spec invariants can be stated: every id passed to
`forceExperimentBranch` and every id passed to `addExperimentIdToElement`. -/
structure ExpState where
  branches : List (String × String)
  activeExperiments : List (String × Bool)
  elementExperimentIds : List String
  forcedIds : List String
  deriving DecidableEq

/-- The state of the freshly constructed singleton (line 111):
`activeExperiments_ = {}` and no experiment selected or forced yet. -/
def initialState : ExpState :=
  { branches := [], activeExperiments := [], elementExperimentIds := [], forcedIds := [] }

/-- Set a key in an association list, replacing an existing binding. -/
def setAssoc (m : List (String × String)) (k v : String) : List (String × String) :=
  match m with
  | [] => [(k, v)]
  | p :: rest => if p.1 == k then (k, v) :: rest else p :: setAssoc rest k v

/-- Set a key of the flag map, replacing an existing binding (`obj[id] = true`). -/
def setFlag (m : List (String × Bool)) (k : String) (v : Bool) : List (String × Bool) :=
  match m with
  | [] => [(k, v)]
  | p :: rest => if p.1 == k then (k, v) :: rest else p :: setFlag rest k v

/-- Lookup in the experiments module branch registry. -/
def lookupBranch (st : ExpState) (name : String) : Option String :=
  (st.branches.find? (fun p => p.1 == name)).map (fun p => p.2)

/-- Modelled from the spec: `getExperimentBranch(win, name)` of the external
experiments module (not under src) returns the branch currently selected for
the named experiment, or null. -/
def getExperimentBranch (st : ExpState) (name : String) : Option String :=
  lookupBranch st name

/-- Modelled from the spec: `forceExperimentBranch(win, name, id)` of the
external experiments module (not under src) records `id` as the branch of the
named experiment.  The forced id is also logged for the invariant claims. -/
def forceExperimentBranch (st : ExpState) (name id : String) : ExpState :=
  { st with branches := setAssoc st.branches name id, forcedIds := id :: st.forcedIds }

/-- Modelled from the spec: `addExperimentIdToElement(id, element)` of the
external `traffic-experiments` module (not under src) attaches the id to the
element; only the fact that it was called with `id` matters here. -/
def addExperimentIdToElement (id : String) (st : ExpState) : ExpState :=
  { st with elementExperimentIds := id :: st.elementExperimentIds }

/-- The keys of the `activeExperiments_` flag map. -/
def flagKeys (st : ExpState) : List String :=
  st.activeExperiments.map (fun p => p.1)

/-- The random outcome of the external bucketing utility: for an experiment
name and the offered branch list (which the code can leave `undefined`, line
215), the branch it would select, or `none` when it selects nothing. -/
abbrev Bucket : Type :=
  String → Option (List String) → Option String

/-- The three statements every selection step runs together under
`if (experimentId)` (lines 147-150 and 217-219): add the id to the element,
force the branch, and flag the id in `activeExperiments_`. -/
def recordSelection (name id : String) (st : ExpState) : ExpState :=
  let st2 := addExperimentIdToElement id st
  let st3 := forceExperimentBranch st2 name id
  { st3 with activeExperiments := setFlag st3.activeExperiments id true }

/-- Modelled from the spec: `randomlySelectUnsetExperiments(win, infoMap)` of
the external experiments module (not under src) attempts a random selection
only for experiments that have no branch set yet; the random outcome is
supplied by the `bucket` oracle. -/
def randomlySelectUnsetExperiments (bucket : Bucket) (st : ExpState)
    (name : String) (branchIds : Option (List String)) : ExpState :=
  match lookupBranch st name with
  | some _ => st
  | none =>
    match bucket name branchIds with
    | some id => { st with branches := setAssoc st.branches name id }
    | none => st

/-- `maybeSelectExperiment` (lines 273-282): run the bucketing utility for a
one-entry info map (traffic always eligible) and read back the branch. -/
def maybeSelectExperiment (bucket : Bucket) (st : ExpState)
    (selectionBranches : Option (List String)) (experimentName : String) :
    Option String × ExpState :=
  let st1 := randomlySelectUnsetExperiments bucket st experimentName selectionBranches
  (getExperimentBranch st1 experimentName, st1)

/-- `unconditionedSelection_` (lines 141-152).  The `win` and `element`
arguments only feed the externally-instrumented calls, so they do not appear
here; `if (experimentId)` is JavaScript truthiness (null and the empty string
are falsy). -/
def unconditionedSelection (bucket : Bucket) (st : ExpState) : ExpState :=
  let sel := maybeSelectExperiment bucket st
      (some [DOUBLECLICK_UNCONDITIONED_EXPERIMENTS.FF_CANONICAL_CTL,
             DOUBLECLICK_UNCONDITIONED_EXPERIMENTS.FF_CANONICAL_EXP])
      DOUBLECLICK_UNCONDITIONED_EXPERIMENT_NAME
  match sel.1 with
  | some id =>
    if id != "" then
      recordSelection DOUBLECLICK_UNCONDITIONED_EXPERIMENT_NAME id sel.2
    else sel.2
  | none => sel.2

/-- `isFastFetchEligible` as computed at lines 157-160 and again at lines
226-229. -/
def isFastFetchEligible (element : Element) (useRemoteHtml : Bool) : Bool :=
  !((useRemoteHtml && !jsTruthyStr element.rtcConfig) ||
    element.useSameDomainDataset || element.useSameDomainAttr)

/-- One entry of the `experiments` array (lines 170-208).  The closures only
read values computed before the loop, so `diversionCriteria` is the boolean
they evaluate to. -/
structure A4aExperimentEntry where
  forceExperimentId : Option String
  experimentBranchIds : Option (List String)
  experimentName : String
  diversionCriteria : Bool
  deriving DecidableEq

/-- The `experiments` array (lines 170-208), as a function of the values the
entry closures capture.  In the fourth entry, `urlExperimentId ?
URL_EXPERIMENT_MAPPING[urlExperimentId] : null` tests number truthiness
(`undefined` and `0` are falsy). -/
def a4aExperiments (eligible proxy : Bool) (urlExperimentId : Option Int)
    (isDevMode hasBetaAttribute : Bool) : List A4aExperimentEntry :=
  [{ forceExperimentId := some MANUAL_EXPERIMENT_ID,
     experimentBranchIds := none,
     experimentName := DFP_CANONICAL_FF_EXPERIMENT_NAME,
     diversionCriteria :=
       eligible && !proxy && jsEqNeg1 urlExperimentId && isDevMode },
   { forceExperimentId := none,
     experimentBranchIds := some [DOUBLECLICK_EXPERIMENT_FEATURE.CANONICAL_CONTROL,
                                  DOUBLECLICK_EXPERIMENT_FEATURE.CANONICAL_EXPERIMENT],
     experimentName := DFP_CANONICAL_FF_EXPERIMENT_NAME,
     diversionCriteria :=
       eligible && !proxy && (!jsEqNeg1 urlExperimentId || !isDevMode) },
   { forceExperimentId := none,
     experimentBranchIds := some [DOUBLECLICK_EXPERIMENT_FEATURE.HOLDBACK_INTERNAL_CONTROL,
                                  DOUBLECLICK_EXPERIMENT_FEATURE.HOLDBACK_INTERNAL],
     experimentName := DOUBLECLICK_A4A_EXPERIMENT_NAME,
     diversionCriteria :=
       eligible && proxy && jsIsUndef urlExperimentId && !hasBetaAttribute },
   { forceExperimentId :=
       if jsTruthyUrlId urlExperimentId then
         match urlExperimentId with
         | some k => URL_EXPERIMENT_MAPPING k
         | none => none
       else none,
     experimentBranchIds := none,
     experimentName := DOUBLECLICK_A4A_EXPERIMENT_NAME,
     diversionCriteria :=
       eligible && proxy && !jsIsUndef urlExperimentId && !hasBetaAttribute },
   { forceExperimentId := some BETA_EXPERIMENT_ID,
     experimentBranchIds := none,
     experimentName := DOUBLECLICK_A4A_EXPERIMENT_NAME,
     diversionCriteria :=
       eligible && proxy && hasBetaAttribute }]

/-- The body of the `experiments.forEach` loop (lines 212-222):
`experimentId = experiment.forceExperimentId || maybeSelectExperiment(...)`
(`||` short-circuits on a truthy forced id), then under `if (!!experimentId)`
the id is added to the element, forced under `DOUBLECLICK_A4A_EXPERIMENT_NAME`
(line 218 uses that name for every entry), and recorded in the flag map. -/
def conditionedSelectionStep (bucket : Bucket) (st : ExpState)
    (ex : A4aExperimentEntry) : ExpState :=
  if ex.diversionCriteria then
    let sel :=
      if jsTruthyStr ex.forceExperimentId then (ex.forceExperimentId, st)
      else maybeSelectExperiment bucket st ex.experimentBranchIds ex.experimentName
    match sel.1 with
    | some id =>
      if id != "" then recordSelection DOUBLECLICK_A4A_EXPERIMENT_NAME id sel.2
      else sel.2
    | none => sel.2
  else st

/-- `selectA4aExperiments` (lines 154-223): the unconditioned pre-pass, then
the ordered conditioned list evaluated entry by entry. -/
def selectA4aExperiments (bucket : Bucket) (win : Window) (element : Element)
    (useRemoteHtml : Bool) (st : ExpState) : ExpState :=
  let st0 := unconditionedSelection bucket st
  (a4aExperiments (isFastFetchEligible element useRemoteHtml)
      (isCdnProxy win.locationOrigin) win.urlExperimentId
      (win.localDev || win.testMode) element.betaAttribute).foldl
    (conditionedSelectionStep bucket) st0

/-- `fastFetchIneligibleExperiments` (lines 230-235).  The fourth array
element reads the enum key `UNCONDITIONED_FF_CANONICAL_CTL`, which does not
exist in `DOUBLECLICK_EXPERIMENT_FEATURE`, so it is `undefined` (`none`). -/
def fastFetchIneligibleExperiments : List (Option String) :=
  [some DOUBLECLICK_EXPERIMENT_FEATURE.HOLDBACK_EXTERNAL,
   some DOUBLECLICK_EXPERIMENT_FEATURE.HOLDBACK_INTERNAL,
   some DOUBLECLICK_EXPERIMENT_FEATURE.CANONICAL_CONTROL,
   none]

/-- The predicate stored in `fastFetchPredicates` (lines 238-243). -/
def unconditionedFfCanonicalExpPredicate (win : Window) (element : Element)
    (useRemoteHtml : Bool) : Bool :=
  isFastFetchEligible element useRemoteHtml &&
  !isCdnProxy win.locationOrigin &&
  !(jsEqNeg1 win.urlExperimentId && (win.localDev || win.testMode)) &&
  !win.cryptoSupported

/-- `shouldUseFastFetch` (lines 225-252).  The `Object.keys(...).forEach`
callback at lines 244-249 evaluates its condition and executes `return false`,
but `forEach` discards the callback's return value, so the traversal cannot
make `shouldUseFastFetch` return; its results are computed and dropped here
exactly as `forEach` drops them.  The predicate map is keyed by the missing
enum key `UNCONDITIONED_FF_CANONICAL_EXP`, i.e. by the string "undefined".
The function's value is the final `return` (line 251). -/
def shouldUseFastFetch (win : Window) (element : Element) (useRemoteHtml : Bool)
    (st : ExpState) : Bool :=
  let eligible := isFastFetchEligible element useRemoteHtml
  let discardedLoop := (flagKeys st).map (fun experimentId =>
    fastFetchIneligibleExperiments.contains (some experimentId) ||
    (experimentId == "undefined" &&
      !unconditionedFfCanonicalExpPredicate win element useRemoteHtml))
  let _ := discardedLoop
  eligible && isCdnProxy win.locationOrigin

/-- The JavaScript value a call to a method can evaluate to, as far as the
exported-signature claim needs: `undefined`, `null`, or a string. -/
inductive JSRet where
  | undefinedV
  | nullV
  | strV (s : String)
  deriving DecidableEq

/-- Whether a returned JavaScript value is a string or null. -/
def JSRet.isStringOrNull : JSRet → Bool
  | JSRet.undefinedV => false
  | JSRet.nullV => true
  | JSRet.strV _ => true

/-- `selectA4aExperiments` together with its JavaScript return value: the
method body (lines 154-223) contains no `return` statement, so a call
evaluates to `undefined`. -/
def selectA4aExperimentsRet (bucket : Bucket) (win : Window) (element : Element)
    (useRemoteHtml : Bool) (st : ExpState) : JSRet × ExpState :=
  (JSRet.undefinedV, selectA4aExperiments bucket win element useRemoteHtml st)

/-- `isA4aEnabled` (lines 260-263): select experiments, then answer the
fast-path question on the updated state. -/
def isA4aEnabled (bucket : Bucket) (win : Window) (element : Element)
    (useRemoteHtml : Bool) (st : ExpState) : Bool × ExpState :=
  let st1 := selectA4aExperiments bucket win element useRemoteHtml st
  (shouldUseFastFetch win element useRemoteHtml st1, st1)

/-- `doubleclickIsA4AEnabled` (lines 294-296): delegate to the singleton's
`isA4aEnabled`; the singleton's state is the explicit `st`. -/
def doubleclickIsA4AEnabled (bucket : Bucket) (win : Window) (element : Element)
    (useRemoteHtml : Bool) (st : ExpState) : Bool × ExpState :=
  isA4aEnabled bucket win element useRemoteHtml st

/-- `experimentFeatureEnabled` (lines 304-307).  `opt_experimentName ||
DOUBLECLICK_A4A_EXPERIMENT_NAME` is JavaScript truthiness; `branch == feature`
compares the nullable branch to the feature string (null never equals a
string). -/
def experimentFeatureEnabled (st : ExpState) (feature : String)
    (optExperimentName : Option String) : Bool :=
  let experimentName :=
    match optExperimentName with
    | some n => if n != "" then n else DOUBLECLICK_A4A_EXPERIMENT_NAME
    | none => DOUBLECLICK_A4A_EXPERIMENT_NAME
  match getExperimentBranch st experimentName with
  | some b => b == feature
  | none => false

/-- Association-list lookup underlying `lookupBranch`. -/
def lookupA (m : List (String × String)) (n : String) : Option String :=
  (m.find? (fun p => p.1 == n)).map (fun p => p.2)

/-- The number of entries of a conditioned list whose diversion criteria
evaluates to true. -/
def countFiring (entries : List A4aExperimentEntry) : Nat :=
  (entries.map (fun ex => ex.diversionCriteria)).count true

/-- The five diversion criteria of the conditioned list (lines 174-206), as
functions of the captured booleans; `urlEqNeg1` stands for
`urlExperimentId == -1` and `urlUndefined` for `urlExperimentId == undefined`. -/
def a4aDiversionCriteria (eligible proxy urlEqNeg1 urlUndefined isDevMode
    hasBetaAttribute : Bool) : List Bool :=
  [eligible && !proxy && urlEqNeg1 && isDevMode,
   eligible && !proxy && (!urlEqNeg1 || !isDevMode),
   eligible && proxy && urlUndefined && !hasBetaAttribute,
   eligible && proxy && !urlUndefined && !hasBetaAttribute,
   eligible && proxy && hasBetaAttribute]

/-- Modelled from the spec: first-match-wins evaluation of the conditioned
list — apply only the first entry whose diversion criteria holds and skip the
rest.  This is the comparator for the refinement claim about the `forEach`
loop. -/
def firstMatchSelection (bucket : Bucket) (st : ExpState) :
    List A4aExperimentEntry → ExpState
  | [] => st
  | ex :: rest =>
    if ex.diversionCriteria then conditionedSelectionStep bucket st ex
    else firstMatchSelection bucket st rest

/-- The spec invariant of the flag map: every stored value is `true` and every
key was passed to `forceExperimentBranch` and to `addExperimentIdToElement`. -/
def flagInvariant (st : ExpState) : Prop :=
  ∀ p ∈ st.activeExperiments,
    p.2 = true ∧ p.1 ∈ st.forcedIds ∧ p.1 ∈ st.elementExperimentIds

/-- A sequence of `doubleclickIsA4AEnabled` calls against the singleton. -/
def runCalls (bucket : Bucket) (calls : List (Window × Element × Bool))
    (st : ExpState) : ExpState :=
  calls.foldl (fun s c => (doubleclickIsA4AEnabled bucket c.1 c.2.1 c.2.2 s).2) st

/-- The bucketing oracle when the external utility may throw: an exception is
an error value. -/
abbrev BucketE : Type :=
  String → Option (List String) → Except String (Option String)

/-- Modelled from the spec: `randomlySelectUnsetExperiments` when the external
utility may throw.  A throw happens inside the external call, before any
selection is recorded. -/
def randomlySelectUnsetExperimentsE (bucket : BucketE) (st : ExpState)
    (name : String) (branchIds : Option (List String)) : Except String ExpState :=
  match lookupBranch st name with
  | some _ => Except.ok st
  | none =>
    match bucket name branchIds with
    | Except.error e => Except.error e
    | Except.ok (some id) =>
      Except.ok { st with branches := setAssoc st.branches name id }
    | Except.ok none => Except.ok st

/-- `maybeSelectExperiment` with exception propagation: the method has no
try/catch, so an error passes through; the error carries the state at the
throw. -/
def maybeSelectExperimentE (bucket : BucketE) (st : ExpState)
    (selectionBranches : Option (List String)) (experimentName : String) :
    Except (String × ExpState) (Option String × ExpState) :=
  match randomlySelectUnsetExperimentsE bucket st experimentName selectionBranches with
  | Except.error e => Except.error (e, st)
  | Except.ok st1 => Except.ok (getExperimentBranch st1 experimentName, st1)

/-- `unconditionedSelection_` with exception propagation (no handler). -/
def unconditionedSelectionE (bucket : BucketE) (st : ExpState) :
    Except (String × ExpState) ExpState :=
  match maybeSelectExperimentE bucket st
      (some [DOUBLECLICK_UNCONDITIONED_EXPERIMENTS.FF_CANONICAL_CTL,
             DOUBLECLICK_UNCONDITIONED_EXPERIMENTS.FF_CANONICAL_EXP])
      DOUBLECLICK_UNCONDITIONED_EXPERIMENT_NAME with
  | Except.error e => Except.error e
  | Except.ok (some id, st1) =>
    Except.ok (if id != "" then
      recordSelection DOUBLECLICK_UNCONDITIONED_EXPERIMENT_NAME id st1 else st1)
  | Except.ok (none, st1) => Except.ok st1

/-- The `forEach` body with exception propagation (no handler). -/
def conditionedSelectionStepE (bucket : BucketE) (st : ExpState)
    (ex : A4aExperimentEntry) : Except (String × ExpState) ExpState :=
  if ex.diversionCriteria then
    match (if jsTruthyStr ex.forceExperimentId then
             Except.ok (ex.forceExperimentId, st)
           else maybeSelectExperimentE bucket st ex.experimentBranchIds
             ex.experimentName) with
    | Except.error e => Except.error e
    | Except.ok (some id, st1) =>
      Except.ok (if id != "" then
        recordSelection DOUBLECLICK_A4A_EXPERIMENT_NAME id st1 else st1)
    | Except.ok (none, st1) => Except.ok st1
  else Except.ok st

/-- The `forEach` loop with exception propagation: an exception thrown by one
iteration aborts the loop. -/
def conditionedFoldE (bucket : BucketE) :
    List A4aExperimentEntry → ExpState → Except (String × ExpState) ExpState
  | [], st => Except.ok st
  | ex :: rest, st =>
    match conditionedSelectionStepE bucket st ex with
    | Except.error e => Except.error e
    | Except.ok st1 => conditionedFoldE bucket rest st1

/-- `selectA4aExperiments` with exception propagation (no handler). -/
def selectA4aExperimentsE (bucket : BucketE) (win : Window) (element : Element)
    (useRemoteHtml : Bool) (st : ExpState) : Except (String × ExpState) ExpState :=
  match unconditionedSelectionE bucket st with
  | Except.error e => Except.error e
  | Except.ok st0 =>
    conditionedFoldE bucket
      (a4aExperiments (isFastFetchEligible element useRemoteHtml)
        (isCdnProxy win.locationOrigin) win.urlExperimentId
        (win.localDev || win.testMode) element.betaAttribute) st0

/-- `doubleclickIsA4AEnabled` (through `isA4aEnabled`) with exception
propagation: neither method has a try/catch. -/
def doubleclickIsA4AEnabledE (bucket : BucketE) (win : Window) (element : Element)
    (useRemoteHtml : Bool) (st : ExpState) :
    Except (String × ExpState) (Bool × ExpState) :=
  match selectA4aExperimentsE bucket win element useRemoteHtml st with
  | Except.error e => Except.error e
  | Except.ok st1 => Except.ok (shouldUseFastFetch win element useRemoteHtml st1, st1)

theorem lookupA_setAssoc_self (k v : String) :
    ∀ m : List (String × String), lookupA (setAssoc m k v) k = some v := by
  intro m
  induction m with
  | nil => simp [setAssoc, lookupA]
  | cons q rest ih =>
    cases hq : (q.1 == k) with
    | true => simp [setAssoc, hq, lookupA]
    | false =>
      simp only [setAssoc, hq, Bool.false_eq_true, if_false]
      simpa [lookupA, hq] using ih

theorem lookupA_setAssoc_ne (k v n : String) (h : n ≠ k) :
    ∀ m : List (String × String), lookupA (setAssoc m k v) n = lookupA m n := by
  have hk : (k == n) = false := by
    simp [Ne.symm h]
  intro m
  induction m with
  | nil => simp [setAssoc, lookupA, hk]
  | cons q rest ih =>
    cases hq : (q.1 == k) with
    | true =>
      have hq1 : q.1 = k := by simpa using hq
      simp [setAssoc, hq, lookupA, hk, hq1]
    | false =>
      simp only [setAssoc, hq, Bool.false_eq_true, if_false]
      cases hqn : (q.1 == n) with
      | true => simp [lookupA, hqn]
      | false => simpa [lookupA, hqn] using ih

theorem mem_setFlag (k : String) (v : Bool) :
    ∀ (m : List (String × Bool)) (p : String × Bool),
      p ∈ setFlag m k v → p = (k, v) ∨ p ∈ m := by
  intro m
  induction m with
  | nil =>
    intro p hp
    simp [setFlag] at hp
    exact Or.inl hp
  | cons q rest ih =>
    intro p hp
    cases hq : (q.1 == k) with
    | true =>
      simp only [setFlag, hq, if_true] at hp
      rcases List.mem_cons.mp hp with h | h
      · exact Or.inl h
      · exact Or.inr (List.mem_cons_of_mem q h)
    | false =>
      simp only [setFlag, hq, Bool.false_eq_true, if_false] at hp
      rcases List.mem_cons.mp hp with h | h
      · exact Or.inr (h ▸ List.mem_cons_self q rest)
      · rcases ih p h with h2 | h2
        · exact Or.inl h2
        · exact Or.inr (List.mem_cons_of_mem q h2)

theorem mem_keys_setFlag_self (k : String) (v : Bool) :
    ∀ m : List (String × Bool), k ∈ (setFlag m k v).map (fun p => p.1) := by
  intro m
  induction m with
  | nil => simp [setFlag]
  | cons q rest ih =>
    cases hq : (q.1 == k) with
    | true => simp [setFlag, hq]
    | false =>
      simp only [setFlag, hq, Bool.false_eq_true, if_false, List.map_cons]
      exact List.mem_cons_of_mem q.1 ih

theorem mem_keys_setFlag_of_mem (k : String) (v : Bool) (x : String) :
    ∀ m : List (String × Bool),
      x ∈ m.map (fun p => p.1) → x ∈ (setFlag m k v).map (fun p => p.1) := by
  intro m
  induction m with
  | nil => intro h; simp at h
  | cons q rest ih =>
    intro h
    cases hq : (q.1 == k) with
    | true =>
      have hq1 : q.1 = k := by simpa using hq
      simp only [setFlag, hq, if_true, List.map_cons]
      rcases List.mem_cons.mp h with h2 | h2
      · exact h2 ▸ hq1 ▸ List.mem_cons_self _ _
      · exact List.mem_cons_of_mem _ h2
    | false =>
      simp only [setFlag, hq, Bool.false_eq_true, if_false, List.map_cons]
      rcases List.mem_cons.mp h with h2 | h2
      · exact h2 ▸ List.mem_cons_self _ _
      · exact List.mem_cons_of_mem _ (ih h2)

theorem rsue_preserves (bucket : Bucket) (st : ExpState) (name : String)
    (ids : Option (List String)) :
    (randomlySelectUnsetExperiments bucket st name ids).activeExperiments
        = st.activeExperiments ∧
    (randomlySelectUnsetExperiments bucket st name ids).elementExperimentIds
        = st.elementExperimentIds ∧
    (randomlySelectUnsetExperiments bucket st name ids).forcedIds = st.forcedIds := by
  unfold randomlySelectUnsetExperiments
  split
  · exact ⟨rfl, rfl, rfl⟩
  · split
    · exact ⟨rfl, rfl, rfl⟩
    · exact ⟨rfl, rfl, rfl⟩

theorem maybeSelect_state (bucket : Bucket) (st : ExpState)
    (ids : Option (List String)) (name : String) :
    ((maybeSelectExperiment bucket st ids name).2).activeExperiments
        = st.activeExperiments ∧
    ((maybeSelectExperiment bucket st ids name).2).elementExperimentIds
        = st.elementExperimentIds ∧
    ((maybeSelectExperiment bucket st ids name).2).forcedIds = st.forcedIds :=
  rsue_preserves bucket st name ids

theorem flagKeys_mono_record (name id : String) (st : ExpState) (x : String)
    (hx : x ∈ flagKeys st) : x ∈ flagKeys (recordSelection name id st) :=
  mem_keys_setFlag_of_mem id true x st.activeExperiments hx

theorem flagKeys_record_self (name id : String) (st : ExpState) :
    id ∈ flagKeys (recordSelection name id st) :=
  mem_keys_setFlag_self id true st.activeExperiments

theorem lookupBranch_record_self (name id : String) (st : ExpState) :
    lookupBranch (recordSelection name id st) name = some id :=
  lookupA_setAssoc_self name id st.branches

theorem lookupBranch_record_other (name id : String) (st : ExpState) (n : String)
    (h : n ≠ name) :
    lookupBranch (recordSelection name id st) n = lookupBranch st n :=
  lookupA_setAssoc_ne name id n h st.branches

theorem lookupBranch_rsue_other (bucket : Bucket) (st : ExpState) (name : String)
    (ids : Option (List String)) (n : String) (h : n ≠ name) :
    lookupBranch (randomlySelectUnsetExperiments bucket st name ids) n
      = lookupBranch st n := by
  unfold randomlySelectUnsetExperiments
  split
  · rfl
  · split
    · exact lookupA_setAssoc_ne name _ n h st.branches
    · rfl

theorem flagKeys_eq_of_active (st1 st2 : ExpState)
    (h : st1.activeExperiments = st2.activeExperiments) :
    flagKeys st1 = flagKeys st2 := by
  unfold flagKeys
  rw [h]

theorem flagKeys_mono_step (bucket : Bucket) (st : ExpState) (ex : A4aExperimentEntry)
    (x : String) (hx : x ∈ flagKeys st) :
    x ∈ flagKeys (conditionedSelectionStep bucket st ex) := by
  have hms := (maybeSelect_state bucket st ex.experimentBranchIds ex.experimentName).1
  cases hc : ex.diversionCriteria with
  | false => simpa [conditionedSelectionStep, hc] using hx
  | true =>
    cases hct : jsTruthyStr ex.forceExperimentId with
    | true =>
      simp only [conditionedSelectionStep, hc, hct, if_true]
      split
      · split
        · exact flagKeys_mono_record _ _ st x hx
        · exact hx
      · exact hx
    | false =>
      simp only [conditionedSelectionStep, hc, hct, Bool.false_eq_true, if_false, if_true]
      split
      · split
        · apply flagKeys_mono_record
          rw [flagKeys_eq_of_active _ st hms]
          exact hx
        · rw [flagKeys_eq_of_active _ st hms]
          exact hx
      · rw [flagKeys_eq_of_active _ st hms]
        exact hx

theorem flagKeys_mono_uncond (bucket : Bucket) (st : ExpState) (x : String)
    (hx : x ∈ flagKeys st) : x ∈ flagKeys (unconditionedSelection bucket st) := by
  have hms := (maybeSelect_state bucket st
    (some [DOUBLECLICK_UNCONDITIONED_EXPERIMENTS.FF_CANONICAL_CTL,
           DOUBLECLICK_UNCONDITIONED_EXPERIMENTS.FF_CANONICAL_EXP])
    DOUBLECLICK_UNCONDITIONED_EXPERIMENT_NAME).1
  simp only [unconditionedSelection]
  split
  · split
    · apply flagKeys_mono_record
      rw [flagKeys_eq_of_active _ st hms]
      exact hx
    · rw [flagKeys_eq_of_active _ st hms]
      exact hx
  · rw [flagKeys_eq_of_active _ st hms]
    exact hx

theorem flagKeys_mono_foldl (bucket : Bucket) :
    ∀ (entries : List A4aExperimentEntry) (st : ExpState) (x : String),
      x ∈ flagKeys st →
      x ∈ flagKeys (entries.foldl (conditionedSelectionStep bucket) st) := by
  intro entries
  induction entries with
  | nil => intro st x hx; simpa using hx
  | cons ex rest ih =>
    intro st x hx
    rw [List.foldl_cons]
    exact ih _ x (flagKeys_mono_step bucket st ex x hx)

theorem flagKeys_mono_select (bucket : Bucket) (win : Window) (element : Element)
    (useRemoteHtml : Bool) (st : ExpState) (x : String) (hx : x ∈ flagKeys st) :
    x ∈ flagKeys (selectA4aExperiments bucket win element useRemoteHtml st) :=
  flagKeys_mono_foldl bucket _ _ x (flagKeys_mono_uncond bucket st x hx)

theorem lookupBranch_step_other (bucket : Bucket) (st : ExpState)
    (ex : A4aExperimentEntry) (n : String) (h1 : n ≠ ex.experimentName)
    (h2 : n ≠ DOUBLECLICK_A4A_EXPERIMENT_NAME) :
    lookupBranch (conditionedSelectionStep bucket st ex) n = lookupBranch st n := by
  have hrs : lookupBranch
      (maybeSelectExperiment bucket st ex.experimentBranchIds ex.experimentName).2 n
      = lookupBranch st n :=
    lookupBranch_rsue_other bucket st ex.experimentName ex.experimentBranchIds n h1
  cases hct : jsTruthyStr ex.forceExperimentId with
  | true =>
    simp only [conditionedSelectionStep, hct, if_true]
    split
    · split
      · split
        · rw [lookupBranch_record_other _ _ _ n h2]
        · rfl
      · rfl
    · rfl
  | false =>
    simp only [conditionedSelectionStep, hct, Bool.false_eq_true, if_false, if_true]
    split
    · split
      · split
        · rw [lookupBranch_record_other _ _ _ n h2]
          exact hrs
        · exact hrs
      · exact hrs
    · rfl

theorem lookupBranch_foldl_other (bucket : Bucket) :
    ∀ (entries : List A4aExperimentEntry) (st : ExpState) (n : String),
      (∀ ex ∈ entries, n ≠ ex.experimentName) →
      n ≠ DOUBLECLICK_A4A_EXPERIMENT_NAME →
      lookupBranch (entries.foldl (conditionedSelectionStep bucket) st) n
        = lookupBranch st n := by
  intro entries
  induction entries with
  | nil => intro st n _ _; rfl
  | cons ex rest ih =>
    intro st n hn h2
    rw [List.foldl_cons, ih _ n (fun e he => hn e (List.mem_cons_of_mem ex he)) h2,
        lookupBranch_step_other bucket st ex n (hn ex (List.mem_cons_self ex rest)) h2]

theorem a4a_entry_names (eligible proxy : Bool) (url : Option Int) (dev beta : Bool) :
    ∀ ex ∈ a4aExperiments eligible proxy url dev beta,
      ex.experimentName = DFP_CANONICAL_FF_EXPERIMENT_NAME ∨
      ex.experimentName = DOUBLECLICK_A4A_EXPERIMENT_NAME := by
  intro ex hex
  simp only [a4aExperiments, List.mem_cons, List.not_mem_nil, or_false] at hex
  rcases hex with h | h | h | h | h <;> subst h <;> simp

theorem uncond_ne_entry_name (eligible proxy : Bool) (url : Option Int) (dev beta : Bool) :
    ∀ ex ∈ a4aExperiments eligible proxy url dev beta,
      DOUBLECLICK_UNCONDITIONED_EXPERIMENT_NAME ≠ ex.experimentName := by
  intro ex hex
  rcases a4a_entry_names eligible proxy url dev beta ex hex with h | h <;> rw [h] <;> decide

theorem uncond_sets (bucket : Bucket) (st : ExpState) (b : String)
    (hunset : lookupBranch st DOUBLECLICK_UNCONDITIONED_EXPERIMENT_NAME = none)
    (hb : bucket DOUBLECLICK_UNCONDITIONED_EXPERIMENT_NAME
        (some [DOUBLECLICK_UNCONDITIONED_EXPERIMENTS.FF_CANONICAL_CTL,
               DOUBLECLICK_UNCONDITIONED_EXPERIMENTS.FF_CANONICAL_EXP]) = some b)
    (hbne : b ≠ "") :
    lookupBranch (unconditionedSelection bucket st)
        DOUBLECLICK_UNCONDITIONED_EXPERIMENT_NAME = some b ∧
    b ∈ flagKeys (unconditionedSelection bucket st) := by
  have hrs : randomlySelectUnsetExperiments bucket st
      DOUBLECLICK_UNCONDITIONED_EXPERIMENT_NAME
      (some [DOUBLECLICK_UNCONDITIONED_EXPERIMENTS.FF_CANONICAL_CTL,
             DOUBLECLICK_UNCONDITIONED_EXPERIMENTS.FF_CANONICAL_EXP])
      = { st with branches := (setAssoc st.branches DOUBLECLICK_UNCONDITIONED_EXPERIMENT_NAME b) } := by
    unfold randomlySelectUnsetExperiments
    rw [hunset, hb]
  have hsel : maybeSelectExperiment bucket st
      (some [DOUBLECLICK_UNCONDITIONED_EXPERIMENTS.FF_CANONICAL_CTL,
             DOUBLECLICK_UNCONDITIONED_EXPERIMENTS.FF_CANONICAL_EXP])
      DOUBLECLICK_UNCONDITIONED_EXPERIMENT_NAME
      = (some b, { st with branches := (setAssoc st.branches DOUBLECLICK_UNCONDITIONED_EXPERIMENT_NAME b) }) := by
    unfold maybeSelectExperiment
    simp only [hrs]
    rw [show getExperimentBranch
        { st with branches := (setAssoc st.branches DOUBLECLICK_UNCONDITIONED_EXPERIMENT_NAME b) }
        DOUBLECLICK_UNCONDITIONED_EXPERIMENT_NAME = some b from
      lookupA_setAssoc_self DOUBLECLICK_UNCONDITIONED_EXPERIMENT_NAME b st.branches]
  have hbne2 : (b != "") = true := by simpa using hbne
  simp only [unconditionedSelection, hsel, hbne2, if_true]
  exact ⟨lookupBranch_record_self _ b _, flagKeys_record_self _ b _⟩

theorem step_no_fire (bucket : Bucket) (st : ExpState) (ex : A4aExperimentEntry)
    (h : ex.diversionCriteria = false) : conditionedSelectionStep bucket st ex = st := by
  simp [conditionedSelectionStep, h]

theorem foldl_no_fire (bucket : Bucket) :
    ∀ (entries : List A4aExperimentEntry) (st : ExpState),
      (∀ ex ∈ entries, ex.diversionCriteria = false) →
      entries.foldl (conditionedSelectionStep bucket) st = st := by
  intro entries
  induction entries with
  | nil => intro st _; rfl
  | cons ex rest ih =>
    intro st h
    rw [List.foldl_cons, step_no_fire bucket st ex (h ex (List.mem_cons_self ex rest))]
    exact ih st (fun e he => h e (List.mem_cons_of_mem ex he))

theorem countFiring_zero (entries : List A4aExperimentEntry)
    (h : countFiring entries = 0) :
    ∀ ex ∈ entries, ex.diversionCriteria = false := by
  intro ex hex
  cases hval : ex.diversionCriteria with
  | false => rfl
  | true =>
    have hmem : (true : Bool) ∈ entries.map (fun e => e.diversionCriteria) :=
      List.mem_map.mpr ⟨ex, hex, hval⟩
    exact absurd hmem (List.count_eq_zero.mp h)

theorem foldl_eq_firstMatch (bucket : Bucket) :
    ∀ (entries : List A4aExperimentEntry) (st : ExpState),
      countFiring entries ≤ 1 →
      entries.foldl (conditionedSelectionStep bucket) st
        = firstMatchSelection bucket st entries := by
  intro entries
  induction entries with
  | nil => intro st _; rfl
  | cons ex rest ih =>
    intro st h
    cases hex : ex.diversionCriteria with
    | false =>
      rw [List.foldl_cons, step_no_fire bucket st ex hex]
      have hcount : countFiring rest ≤ 1 := by
        simpa [countFiring, List.count_cons, hex] using h
      rw [ih st hcount]
      simp [firstMatchSelection, hex]
    | true =>
      have hrest : countFiring rest = 0 := by
        simp [countFiring, List.count_cons, hex] at h ⊢
        omega
      rw [List.foldl_cons,
          foldl_no_fire bucket rest _ (countFiring_zero rest hrest)]
      simp [firstMatchSelection, hex]

theorem a4aDiversionCriteria_at_most_one :
    ∀ e p q r d b : Bool, (a4aDiversionCriteria e p q r d b).count true ≤ 1 := by
  decide

theorem countFiring_a4a (eligible proxy : Bool) (url : Option Int) (dev beta : Bool) :
    countFiring (a4aExperiments eligible proxy url dev beta) ≤ 1 := by
  have hmap : (a4aExperiments eligible proxy url dev beta).map
        (fun ex => ex.diversionCriteria)
      = a4aDiversionCriteria eligible proxy (jsEqNeg1 url) (jsIsUndef url) dev beta := rfl
  unfold countFiring
  rw [hmap]
  exact a4aDiversionCriteria_at_most_one eligible proxy (jsEqNeg1 url) (jsIsUndef url)
    dev beta

theorem flagInvariant_record (name id : String) (st : ExpState) (h : flagInvariant st) :
    flagInvariant (recordSelection name id st) := by
  intro p hp
  have hp2 : p ∈ setFlag st.activeExperiments id true := hp
  rcases mem_setFlag id true st.activeExperiments p hp2 with h0 | hmem
  · subst h0
    exact ⟨rfl, List.mem_cons_self _ _, List.mem_cons_self _ _⟩
  · obtain ⟨h1, h2, h3⟩ := h p hmem
    exact ⟨h1, List.mem_cons_of_mem _ h2, List.mem_cons_of_mem _ h3⟩

theorem flagInvariant_fields (st1 st2 : ExpState)
    (ha : st1.activeExperiments = st2.activeExperiments)
    (he : st1.elementExperimentIds = st2.elementExperimentIds)
    (hf : st1.forcedIds = st2.forcedIds) (h : flagInvariant st2) :
    flagInvariant st1 := by
  intro p hp
  rw [ha] at hp
  rw [he, hf]
  exact h p hp

theorem flagInvariant_step (bucket : Bucket) (st : ExpState) (ex : A4aExperimentEntry)
    (h : flagInvariant st) : flagInvariant (conditionedSelectionStep bucket st ex) := by
  obtain ⟨ha, he, hf⟩ := maybeSelect_state bucket st ex.experimentBranchIds
    ex.experimentName
  have hmsInv : flagInvariant
      (maybeSelectExperiment bucket st ex.experimentBranchIds ex.experimentName).2 :=
    flagInvariant_fields _ st ha he hf h
  cases hc : ex.diversionCriteria with
  | false =>
    rw [step_no_fire bucket st ex hc]
    exact h
  | true =>
    cases hct : jsTruthyStr ex.forceExperimentId with
    | true =>
      simp only [conditionedSelectionStep, hc, hct, if_true]
      split
      · split
        · exact flagInvariant_record _ _ st h
        · exact h
      · exact h
    | false =>
      simp only [conditionedSelectionStep, hc, hct, Bool.false_eq_true, if_false, if_true]
      split
      · split
        · exact flagInvariant_record _ _ _ hmsInv
        · exact hmsInv
      · exact hmsInv

theorem flagInvariant_uncond (bucket : Bucket) (st : ExpState) (h : flagInvariant st) :
    flagInvariant (unconditionedSelection bucket st) := by
  obtain ⟨ha, he, hf⟩ := maybeSelect_state bucket st
    (some [DOUBLECLICK_UNCONDITIONED_EXPERIMENTS.FF_CANONICAL_CTL,
           DOUBLECLICK_UNCONDITIONED_EXPERIMENTS.FF_CANONICAL_EXP])
    DOUBLECLICK_UNCONDITIONED_EXPERIMENT_NAME
  have hmsInv : flagInvariant (maybeSelectExperiment bucket st
      (some [DOUBLECLICK_UNCONDITIONED_EXPERIMENTS.FF_CANONICAL_CTL,
             DOUBLECLICK_UNCONDITIONED_EXPERIMENTS.FF_CANONICAL_EXP])
      DOUBLECLICK_UNCONDITIONED_EXPERIMENT_NAME).2 :=
    flagInvariant_fields _ st ha he hf h
  simp only [unconditionedSelection]
  split
  · split
    · exact flagInvariant_record _ _ _ hmsInv
    · exact hmsInv
  · exact hmsInv

theorem flagInvariant_foldl (bucket : Bucket) :
    ∀ (entries : List A4aExperimentEntry) (st : ExpState), flagInvariant st →
      flagInvariant (entries.foldl (conditionedSelectionStep bucket) st) := by
  intro entries
  induction entries with
  | nil => intro st h; simpa using h
  | cons ex rest ih =>
    intro st h
    rw [List.foldl_cons]
    exact ih _ (flagInvariant_step bucket st ex h)

theorem flagInvariant_enabled (bucket : Bucket) (win : Window) (element : Element)
    (useRemoteHtml : Bool) (st : ExpState) (h : flagInvariant st) :
    flagInvariant (doubleclickIsA4AEnabled bucket win element useRemoteHtml st).2 :=
  flagInvariant_foldl bucket _ _ (flagInvariant_uncond bucket st h)

theorem flagInvariant_initial : flagInvariant initialState := by
  intro p hp
  simp [initialState] at hp

theorem rsueE_error (bucket : BucketE) (st : ExpState) (name : String)
    (ids : Option (List String)) (e : String)
    (h : randomlySelectUnsetExperimentsE bucket st name ids = Except.error e) :
    bucket name ids = Except.error e := by
  unfold randomlySelectUnsetExperimentsE at h
  split at h
  · cases h
  · split at h
    · rename_i e2 hb
      cases h
      exact hb
    · cases h
    · cases h

theorem maybeSelectE_error (bucket : BucketE) (st : ExpState)
    (ids : Option (List String)) (name : String) (out : String × ExpState)
    (h : maybeSelectExperimentE bucket st ids name = Except.error out) :
    out.2 = st ∧ bucket name ids = Except.error out.1 := by
  unfold maybeSelectExperimentE at h
  split at h
  · rename_i e hr
    cases h
    exact ⟨rfl, rsueE_error bucket st name ids e hr⟩
  · cases h

theorem stepE_error (bucket : BucketE) (st : ExpState) (ex : A4aExperimentEntry)
    (out : String × ExpState)
    (h : conditionedSelectionStepE bucket st ex = Except.error out) :
    ∃ name ids, bucket name ids = Except.error out.1 := by
  unfold conditionedSelectionStepE at h
  split at h
  · split at h
    · rename_i e hin
      cases h
      cases hct : jsTruthyStr ex.forceExperimentId with
      | true => rw [if_pos hct] at hin; cases hin
      | false =>
        rw [if_neg (by simp [hct])] at hin
        exact ⟨ex.experimentName, ex.experimentBranchIds,
          (maybeSelectE_error bucket st ex.experimentBranchIds ex.experimentName _ hin).2⟩
    · cases h
    · cases h
  · cases h

theorem foldE_error (bucket : BucketE) :
    ∀ (entries : List A4aExperimentEntry) (st : ExpState) (out : String × ExpState),
      conditionedFoldE bucket entries st = Except.error out →
      ∃ name ids, bucket name ids = Except.error out.1 := by
  intro entries
  induction entries with
  | nil => intro st out h; cases h
  | cons ex rest ih =>
    intro st out h
    unfold conditionedFoldE at h
    split at h
    · rename_i e hstep
      cases h
      exact stepE_error bucket st ex _ hstep
    · rename_i st1 hstep
      exact ih st1 out h

theorem uncondE_error (bucket : BucketE) (st : ExpState) (out : String × ExpState)
    (h : unconditionedSelectionE bucket st = Except.error out) :
    out.2 = st ∧ ∃ name ids, bucket name ids = Except.error out.1 := by
  unfold unconditionedSelectionE at h
  split at h
  · rename_i e hms
    cases h
    obtain ⟨h1, h2⟩ := maybeSelectE_error bucket st _ _ _ hms
    exact ⟨h1, _, _, h2⟩
  · cases h
  · cases h

theorem enabledE_error (bucket : BucketE) (win : Window) (element : Element)
    (useRemoteHtml : Bool) (st : ExpState) (out : String × ExpState)
    (h : doubleclickIsA4AEnabledE bucket win element useRemoteHtml st
        = Except.error out) :
    ∃ name ids, bucket name ids = Except.error out.1 := by
  unfold doubleclickIsA4AEnabledE at h
  split at h
  · rename_i e hsel
    cases h
    unfold selectA4aExperimentsE at hsel
    split at hsel
    · rename_i e2 hu
      cases hsel
      exact (uncondE_error bucket st _ hu).2
    · rename_i st0 hu
      exact foldE_error bucket _ st0 _ hsel
  · cases h

theorem uncond_throw_propagates (bucket : BucketE) (win : Window) (element : Element)
    (useRemoteHtml : Bool) (st : ExpState) (e : String)
    (h1 : lookupBranch st DOUBLECLICK_UNCONDITIONED_EXPERIMENT_NAME = none)
    (h2 : bucket DOUBLECLICK_UNCONDITIONED_EXPERIMENT_NAME
        (some [DOUBLECLICK_UNCONDITIONED_EXPERIMENTS.FF_CANONICAL_CTL,
               DOUBLECLICK_UNCONDITIONED_EXPERIMENTS.FF_CANONICAL_EXP])
        = Except.error e) :
    doubleclickIsA4AEnabledE bucket win element useRemoteHtml st
      = Except.error (e, st) := by
  simp [doubleclickIsA4AEnabledE, selectA4aExperimentsE, unconditionedSelectionE,
    maybeSelectExperimentE, randomlySelectUnsetExperimentsE, h1, h2]

theorem flagKeys_mono_runCalls (bucket : Bucket) :
    ∀ (calls : List (Window × Element × Bool)) (st : ExpState) (k : String),
      k ∈ flagKeys st → k ∈ flagKeys (runCalls bucket calls st) := by
  intro calls
  induction calls with
  | nil => intro st k hk; simpa [runCalls] using hk
  | cons c rest ih =>
    intro st k hk
    show k ∈ flagKeys (runCalls bucket rest
      (doubleclickIsA4AEnabled bucket c.1 c.2.1 c.2.2 st).2)
    exact ih _ k (flagKeys_mono_select bucket c.1 c.2.1 c.2.2 st k hk)

/-- C1: the claim says that when the `activeExperiments_` flag map contains a
fast-fetch-ineligible experiment id (here HOLDBACK_EXTERNAL '21060727'),
`shouldUseFastFetch` returns false.  The code returns true on exactly such an
input: the `return false` at line 247 only exits the `forEach` callback, so
the flag map never affects the result. -/
theorem shouldUseFastFetch_ignores_holdback :
    shouldUseFastFetch
      { locationOrigin := "https://cdn.ampproject.org", localDev := false,
        testMode := false, cryptoSupported := true, urlExperimentId := none }
      { rtcConfig := none, useSameDomainDataset := false,
        useSameDomainAttr := false, betaAttribute := false }
      false
      { branches := [],
        activeExperiments := [(DOUBLECLICK_EXPERIMENT_FEATURE.HOLDBACK_EXTERNAL, true)],
        elementExperimentIds := [DOUBLECLICK_EXPERIMENT_FEATURE.HOLDBACK_EXTERNAL],
        forcedIds := [DOUBLECLICK_EXPERIMENT_FEATURE.HOLDBACK_EXTERNAL] }
      = true := rfl

/-- C2: for every window, element, rendering-mode flag and state,
`shouldUseFastFetch` returns true iff the element is fast-fetch eligible (not
(`useRemoteHtml` and no truthy `rtc-config`), and
`useSameDomainRenderingUntilDeprecated` neither in the dataset nor as an
attribute) and the origin matches the CDN-proxy regex; the result does not
depend on the `activeExperiments_` flag map. -/
theorem shouldUseFastFetch_spec (win : Window) (element : Element)
    (useRemoteHtml : Bool) (st st2 : ExpState) :
    shouldUseFastFetch win element useRemoteHtml st
      = (isFastFetchEligible element useRemoteHtml && isCdnProxy win.locationOrigin) ∧
    shouldUseFastFetch win element useRemoteHtml st
      = (!((useRemoteHtml && !jsTruthyStr element.rtcConfig) ||
           element.useSameDomainDataset || element.useSameDomainAttr)
         && isCdnProxy win.locationOrigin) ∧
    shouldUseFastFetch win element useRemoteHtml st
      = shouldUseFastFetch win element useRemoteHtml st2 :=
  ⟨rfl, rfl, rfl⟩

/-- C3: for every combination of eligibility, proxy status, URL experiment
id, dev mode and beta attribute, at most one diversion criteria of the
conditioned list holds, so evaluating every entry in order (the `forEach`
loop) equals stopping at the first entry whose condition holds. -/
theorem conditioned_first_match_wins (eligible proxy : Bool) (url : Option Int)
    (dev beta : Bool) (bucket : Bucket) (st : ExpState) :
    countFiring (a4aExperiments eligible proxy url dev beta) ≤ 1 ∧
    (a4aExperiments eligible proxy url dev beta).foldl
        (conditionedSelectionStep bucket) st
      = firstMatchSelection bucket st (a4aExperiments eligible proxy url dev beta) :=
  ⟨countFiring_a4a eligible proxy url dev beta,
   foldl_eq_firstMatch bucket _ st (countFiring_a4a eligible proxy url dev beta)⟩

/-- C4: `selectA4aExperiments` always runs the unconditioned selection first
(the conditioned list is folded over its output state), and when the bucketing
utility picks a branch `b` of `expUnconditionedDoubleclick`, that branch ends
up forced and recorded in the flag map for every element, rendering-mode flag,
dev mode and proxy status. -/
theorem unconditioned_pre_pass (bucket : Bucket) (win : Window) (element : Element)
    (useRemoteHtml : Bool) (st : ExpState) (b : String)
    (hunset : lookupBranch st DOUBLECLICK_UNCONDITIONED_EXPERIMENT_NAME = none)
    (hb : bucket DOUBLECLICK_UNCONDITIONED_EXPERIMENT_NAME
        (some [DOUBLECLICK_UNCONDITIONED_EXPERIMENTS.FF_CANONICAL_CTL,
               DOUBLECLICK_UNCONDITIONED_EXPERIMENTS.FF_CANONICAL_EXP]) = some b)
    (hbne : b ≠ "") :
    selectA4aExperiments bucket win element useRemoteHtml st
      = (a4aExperiments (isFastFetchEligible element useRemoteHtml)
          (isCdnProxy win.locationOrigin) win.urlExperimentId
          (win.localDev || win.testMode) element.betaAttribute).foldl
          (conditionedSelectionStep bucket) (unconditionedSelection bucket st) ∧
    lookupBranch (selectA4aExperiments bucket win element useRemoteHtml st)
        DOUBLECLICK_UNCONDITIONED_EXPERIMENT_NAME = some b ∧
    b ∈ flagKeys (selectA4aExperiments bucket win element useRemoteHtml st) := by
  obtain ⟨hbr, hkey⟩ := uncond_sets bucket st b hunset hb hbne
  refine ⟨rfl, ?_, ?_⟩
  · rw [show selectA4aExperiments bucket win element useRemoteHtml st
        = (a4aExperiments (isFastFetchEligible element useRemoteHtml)
            (isCdnProxy win.locationOrigin) win.urlExperimentId
            (win.localDev || win.testMode) element.betaAttribute).foldl
            (conditionedSelectionStep bucket) (unconditionedSelection bucket st)
        from rfl]
    rw [lookupBranch_foldl_other bucket _ _ _
        (uncond_ne_entry_name _ _ _ _ _) (by decide)]
    exact hbr
  · exact flagKeys_mono_foldl bucket _ _ b hkey

/-- Witness for `unconditioned_pre_pass` at a concrete input. -/
theorem unconditioned_pre_pass_witness :
    lookupBranch (selectA4aExperiments
        (fun name _ => if name == DOUBLECLICK_UNCONDITIONED_EXPERIMENT_NAME
                       then some "21061146" else none)
        { locationOrigin := "https://example.com", localDev := false,
          testMode := false, cryptoSupported := false, urlExperimentId := none }
        { rtcConfig := none, useSameDomainDataset := false,
          useSameDomainAttr := false, betaAttribute := false }
        false initialState)
        DOUBLECLICK_UNCONDITIONED_EXPERIMENT_NAME = some "21061146" ∧
    "21061146" ∈ flagKeys (selectA4aExperiments
        (fun name _ => if name == DOUBLECLICK_UNCONDITIONED_EXPERIMENT_NAME
                       then some "21061146" else none)
        { locationOrigin := "https://example.com", localDev := false,
          testMode := false, cryptoSupported := false, urlExperimentId := none }
        { rtcConfig := none, useSameDomainDataset := false,
          useSameDomainAttr := false, betaAttribute := false }
        false initialState) :=
  ⟨(unconditioned_pre_pass
      (fun name _ => if name == DOUBLECLICK_UNCONDITIONED_EXPERIMENT_NAME
                     then some "21061146" else none)
      { locationOrigin := "https://example.com", localDev := false,
        testMode := false, cryptoSupported := false, urlExperimentId := none }
      { rtcConfig := none, useSameDomainDataset := false,
        useSameDomainAttr := false, betaAttribute := false }
      false initialState "21061146" rfl rfl (by decide)).2.1,
   (unconditioned_pre_pass
      (fun name _ => if name == DOUBLECLICK_UNCONDITIONED_EXPERIMENT_NAME
                     then some "21061146" else none)
      { locationOrigin := "https://example.com", localDev := false,
        testMode := false, cryptoSupported := false, urlExperimentId := none }
      { rtcConfig := none, useSameDomainDataset := false,
        useSameDomainAttr := false, betaAttribute := false }
      false initialState "21061146" rfl rfl (by decide)).2.2⟩

/-- C5: the flag-map invariant — every stored value is true and every key was
passed to `forceExperimentBranch` and to `addExperimentIdToElement` — holds in
the initial singleton state and is preserved by every
`doubleclickIsA4AEnabled` call. -/
theorem flag_map_invariant (bucket : Bucket) (win : Window) (element : Element)
    (useRemoteHtml : Bool) (st : ExpState) (h : flagInvariant st) :
    flagInvariant initialState ∧
    flagInvariant (doubleclickIsA4AEnabled bucket win element useRemoteHtml st).2 :=
  ⟨flagInvariant_initial, flagInvariant_enabled bucket win element useRemoteHtml st h⟩

/-- Witness for `flag_map_invariant` at a concrete input. -/
theorem flag_map_invariant_witness :
    flagInvariant initialState ∧
    flagInvariant (doubleclickIsA4AEnabled (fun _ _ => some "21061146")
      { locationOrigin := "https://cdn.ampproject.org", localDev := false,
        testMode := false, cryptoSupported := true, urlExperimentId := none }
      { rtcConfig := none, useSameDomainDataset := false,
        useSameDomainAttr := false, betaAttribute := false }
      false initialState).2 :=
  flag_map_invariant (fun _ _ => some "21061146")
    { locationOrigin := "https://cdn.ampproject.org", localDev := false,
      testMode := false, cryptoSupported := true, urlExperimentId := none }
    { rtcConfig := none, useSameDomainDataset := false,
      useSameDomainAttr := false, betaAttribute := false }
    false initialState (fun p hp => by simp [initialState] at hp)

/-- C6: no operation removes or clears flag-map entries — every key present
before a `doubleclickIsA4AEnabled` call (and before any sequence of such
calls) is still present afterwards. -/
theorem flag_map_monotone (bucket : Bucket) (calls : List (Window × Element × Bool))
    (win : Window) (element : Element) (useRemoteHtml : Bool) (st : ExpState)
    (k : String) (hk : k ∈ flagKeys st) :
    k ∈ flagKeys (doubleclickIsA4AEnabled bucket win element useRemoteHtml st).2 ∧
    k ∈ flagKeys (runCalls bucket calls st) :=
  ⟨flagKeys_mono_select bucket win element useRemoteHtml st k hk,
   flagKeys_mono_runCalls bucket calls st k hk⟩

/-- Witness for `flag_map_monotone` at a concrete input. -/
theorem flag_map_monotone_witness :
    "21060727" ∈ flagKeys (doubleclickIsA4AEnabled (fun _ _ => none)
      { locationOrigin := "https://example.com", localDev := false,
        testMode := false, cryptoSupported := false, urlExperimentId := none }
      { rtcConfig := none, useSameDomainDataset := false,
        useSameDomainAttr := false, betaAttribute := false }
      false
      { branches := [], activeExperiments := [("21060727", true)],
        elementExperimentIds := ["21060727"], forcedIds := ["21060727"] }).2 ∧
    "21060727" ∈ flagKeys (runCalls (fun _ _ => none) []
      { branches := [], activeExperiments := [("21060727", true)],
        elementExperimentIds := ["21060727"], forcedIds := ["21060727"] }) :=
  flag_map_monotone (fun _ _ => none) []
    { locationOrigin := "https://example.com", localDev := false,
      testMode := false, cryptoSupported := false, urlExperimentId := none }
    { rtcConfig := none, useSameDomainDataset := false,
      useSameDomainAttr := false, betaAttribute := false }
    false
    { branches := [], activeExperiments := [("21060727", true)],
      elementExperimentIds := ["21060727"], forcedIds := ["21060727"] }
    "21060727" (by decide)

/-- C7 (counterexample): at a concrete input, the experiment-branch decision
`selectA4aExperiments(win, element, useRemoteHtml)` evaluates to `undefined`
(the method body has no `return` statement), which is neither a string nor
null — against the claim that it returns a string or null for every input. -/
theorem select_experiments_not_string_or_null :
    (selectA4aExperimentsRet (fun _ _ => none)
      { locationOrigin := "https://cdn.ampproject.org", localDev := false,
        testMode := false, cryptoSupported := true, urlExperimentId := none }
      { rtcConfig := none, useSameDomainDataset := false,
        useSameDomainAttr := false, betaAttribute := false }
      false initialState).1.isStringOrNull = false := rfl

/-- C7 (amended): the exported fast-path decision takes (window, element,
boolean flag) and yields a boolean for every input; the experiment-branch
selection with that signature returns no value (`undefined`), and it is the
internal branch selector `maybeSelectExperiment` that yields a string or null
for every input. -/
theorem decision_signatures (bucket : Bucket) (win : Window) (element : Element)
    (useRemoteHtml : Bool) (st : ExpState) (ids : Option (List String))
    (name : String) :
    ((doubleclickIsA4AEnabled bucket win element useRemoteHtml st).1 = true ∨
     (doubleclickIsA4AEnabled bucket win element useRemoteHtml st).1 = false) ∧
    ((maybeSelectExperiment bucket st ids name).1 = none ∨
     ∃ s, (maybeSelectExperiment bucket st ids name).1 = some s) ∧
    (selectA4aExperimentsRet bucket win element useRemoteHtml st).1
      = JSRet.undefinedV := by
  refine ⟨?_, ?_, rfl⟩
  · rcases Bool.eq_false_or_eq_true
      ((doubleclickIsA4AEnabled bucket win element useRemoteHtml st).1) with h | h
    · exact Or.inl h
    · exact Or.inr h
  · cases hms : (maybeSelectExperiment bucket st ids name).1 with
    | none => exact Or.inl rfl
    | some s => exact Or.inr ⟨s, rfl⟩

/-- C8: `doubleclickIsA4AEnabled` makes both decisions in sequence — it first
runs `selectA4aExperiments` (unconditioned pre-pass included) and then returns
`shouldUseFastFetch` evaluated on the same inputs and the updated state. -/
theorem enabled_selects_then_decides (bucket : Bucket) (win : Window)
    (element : Element) (useRemoteHtml : Bool) (st : ExpState) :
    doubleclickIsA4AEnabled bucket win element useRemoteHtml st
      = (shouldUseFastFetch win element useRemoteHtml
          (selectA4aExperiments bucket win element useRemoteHtml st),
         selectA4aExperiments bucket win element useRemoteHtml st) ∧
    selectA4aExperiments bucket win element useRemoteHtml st
      = (a4aExperiments (isFastFetchEligible element useRemoteHtml)
          (isCdnProxy win.locationOrigin) win.urlExperimentId
          (win.localDev || win.testMode) element.betaAttribute).foldl
          (conditionedSelectionStep bucket) (unconditionedSelection bucket st) :=
  ⟨rfl, rfl⟩

/-- C9: no decision method handles errors — an exception of the external
bucketing utility inside `maybeSelectExperiment` leaves the state (so the flag
map) of that step unchanged, every error surfacing from
`doubleclickIsA4AEnabled` is one the bucketing oracle threw (unchanged), and a
throw during the unconditioned selection propagates to the caller with the
state untouched. -/
theorem bucketing_failures_unhandled (bucket : BucketE) :
    (∀ (st : ExpState) (ids : Option (List String)) (name : String)
        (out : String × ExpState),
        maybeSelectExperimentE bucket st ids name = Except.error out →
        out.2 = st ∧ bucket name ids = Except.error out.1) ∧
    (∀ (win : Window) (element : Element) (useRemoteHtml : Bool) (st : ExpState)
        (out : String × ExpState),
        doubleclickIsA4AEnabledE bucket win element useRemoteHtml st
          = Except.error out →
        ∃ name ids, bucket name ids = Except.error out.1) ∧
    (∀ (win : Window) (element : Element) (useRemoteHtml : Bool) (st : ExpState)
        (e : String),
        lookupBranch st DOUBLECLICK_UNCONDITIONED_EXPERIMENT_NAME = none →
        bucket DOUBLECLICK_UNCONDITIONED_EXPERIMENT_NAME
            (some [DOUBLECLICK_UNCONDITIONED_EXPERIMENTS.FF_CANONICAL_CTL,
                   DOUBLECLICK_UNCONDITIONED_EXPERIMENTS.FF_CANONICAL_EXP])
          = Except.error e →
        doubleclickIsA4AEnabledE bucket win element useRemoteHtml st
          = Except.error (e, st)) :=
  ⟨fun st ids name out h => maybeSelectE_error bucket st ids name out h,
   fun win element useRemoteHtml st out h =>
     enabledE_error bucket win element useRemoteHtml st out h,
   fun win element useRemoteHtml st e h1 h2 =>
     uncond_throw_propagates bucket win element useRemoteHtml st e h1 h2⟩

/-- Witness for `bucketing_failures_unhandled` at a concrete input. -/
theorem bucketing_failures_unhandled_witness :
    doubleclickIsA4AEnabledE (fun _ _ => Except.error "bucketing failed")
      { locationOrigin := "https://cdn.ampproject.org", localDev := false,
        testMode := false, cryptoSupported := true, urlExperimentId := none }
      { rtcConfig := none, useSameDomainDataset := false,
        useSameDomainAttr := false, betaAttribute := false }
      false initialState = Except.error ("bucketing failed", initialState) :=
  (bucketing_failures_unhandled (fun _ _ => Except.error "bucketing failed")).2.2
    _ _ false initialState "bucketing failed" rfl rfl

/-- C10: for a fast-fetch-eligible element on the CDN proxy carrying the beta
attribute, only the beta entry of the conditioned list fires (the
holdback-internal and URL entries do not, whatever the URL experiment id —
including the manual value -1), so the conditioned pass adds exactly the beta
experiment id '2077831' to the flag map and forces it. -/
theorem beta_attribute_precedence (bucket : Bucket) (win : Window)
    (element : Element) (useRemoteHtml : Bool) (st : ExpState)
    (h1 : isFastFetchEligible element useRemoteHtml = true)
    (h2 : isCdnProxy win.locationOrigin = true)
    (h3 : element.betaAttribute = true) :
    (a4aExperiments (isFastFetchEligible element useRemoteHtml)
        (isCdnProxy win.locationOrigin) win.urlExperimentId
        (win.localDev || win.testMode) element.betaAttribute).map
        (fun ex => ex.diversionCriteria) = [false, false, false, false, true] ∧
    (selectA4aExperiments bucket win element useRemoteHtml st).activeExperiments
      = setFlag (unconditionedSelection bucket st).activeExperiments
          BETA_EXPERIMENT_ID true ∧
    lookupBranch (selectA4aExperiments bucket win element useRemoteHtml st)
        DOUBLECLICK_A4A_EXPERIMENT_NAME = some BETA_EXPERIMENT_ID := by
  have hmap : (a4aExperiments (isFastFetchEligible element useRemoteHtml)
      (isCdnProxy win.locationOrigin) win.urlExperimentId
      (win.localDev || win.testMode) element.betaAttribute).map
      (fun ex => ex.diversionCriteria) = [false, false, false, false, true] := by
    rw [h1, h2, h3]
    simp [a4aExperiments]
  have hsel : selectA4aExperiments bucket win element useRemoteHtml st
      = recordSelection DOUBLECLICK_A4A_EXPERIMENT_NAME BETA_EXPERIMENT_ID
          (unconditionedSelection bucket st) := by
    have hbne : (BETA_EXPERIMENT_ID != "") = true := by decide
    unfold selectA4aExperiments
    rw [h1, h2, h3]
    simp only [a4aExperiments, List.foldl_cons, List.foldl_nil]
    rw [step_no_fire bucket (unconditionedSelection bucket st) _ (by simp),
        step_no_fire bucket (unconditionedSelection bucket st) _ (by simp),
        step_no_fire bucket (unconditionedSelection bucket st) _ (by simp),
        step_no_fire bucket (unconditionedSelection bucket st) _ (by simp)]
    simp [conditionedSelectionStep, jsTruthyStr, hbne]
  refine ⟨hmap, ?_, ?_⟩
  · rw [hsel]
    rfl
  · rw [hsel]
    exact lookupBranch_record_self _ _ _

/-- Witness for `beta_attribute_precedence` at a concrete input with the
manual URL experiment value -1. -/
theorem beta_attribute_precedence_witness :
    (a4aExperiments true true (some (-1)) true true).map
        (fun ex => ex.diversionCriteria) = [false, false, false, false, true] ∧
    (selectA4aExperiments (fun _ _ => none)
        { locationOrigin := "https://cdn.ampproject.org", localDev := true,
          testMode := false, cryptoSupported := true, urlExperimentId := some (-1) }
        { rtcConfig := none, useSameDomainDataset := false,
          useSameDomainAttr := false, betaAttribute := true }
        false initialState).activeExperiments
      = setFlag (unconditionedSelection (fun _ _ => none) initialState).activeExperiments
          BETA_EXPERIMENT_ID true ∧
    lookupBranch (selectA4aExperiments (fun _ _ => none)
        { locationOrigin := "https://cdn.ampproject.org", localDev := true,
          testMode := false, cryptoSupported := true, urlExperimentId := some (-1) }
        { rtcConfig := none, useSameDomainDataset := false,
          useSameDomainAttr := false, betaAttribute := true }
        false initialState)
        DOUBLECLICK_A4A_EXPERIMENT_NAME = some BETA_EXPERIMENT_ID :=
  beta_attribute_precedence (fun _ _ => none)
    { locationOrigin := "https://cdn.ampproject.org", localDev := true,
      testMode := false, cryptoSupported := true, urlExperimentId := some (-1) }
    { rtcConfig := none, useSameDomainDataset := false,
      useSameDomainAttr := false, betaAttribute := true }
    false initialState rfl rfl rfl

end AmpDoubleclick
